import Mathlib

/-!
Shallow embedding of `src/cmdstanpy/lib.py` (classes `Model`, `SamplerArgs`,
`RunSet`) together with proofs settling the frozen claims about it.

Modelling conventions:
* Python strings are `String`; Python `None`-able attributes are `Option _`.
* Numeric attributes whose values the code compares and renders are modelled
  as `ℚ` (Python ints and floats both flow into these slots; an integer value
  is a rational with denominator 1).  `str()` of an integer value matches the
  Python rendering; the decimal rendering of non-integer floats is abstracted
  (no claim depends on it).
* The file system touched by `os.path.exists` and the `open(...)` write probe
  is a pair of predicates (`FS`).  `numpy` RNG draws are an explicit oracle
  argument.
* A raised Python exception is an `Except.error` carrying a `PyErr`.
-/

namespace Cmdstanpy

/-- Python exceptions that the embedded code can raise.  `nameError n` is
`NameError: name n is not defined`, `keyError k` is `KeyError: k` (raised by
`str.format` on an unknown replacement-field name), `valueError` carries the
message of a `ValueError`. -/
inductive PyErr where
  | nameError (n : String)
  | keyError (k : String)
  | valueError (msg : String)
deriving DecidableEq, Repr

/-- Python `str()` of an `Option String` slot: `str(None) = "None"`; a string
renders as itself (this is how `'{}'.format(x)` shows these attributes). -/
def optStr : Option String → String
  | none => "None"
  | some s => s

/-- Python `str()` of a numeric slot.  An integer value (denominator 1) prints
its integer numeral exactly as Python does; for a non-integer value the code
would print a decimal float, which we abstract as a slash-free
numerator/denominator rendering (no claim depends on the non-integer case). -/
def pyStr (q : ℚ) : String :=
  if q.den == 1 then toString q.num else toString q.num ++ "r" ++ toString q.den

/-- Modelled from the spec: `is_int` is imported from `cmdstanpy.utils`, a
module that is not part of src/.  Per the spec's words the draw counts and the
seed must be integers ("draw counts, if supplied, are not non-negative
integers"; "the seed, if supplied, is not an integer in [0, 2^32-1]"), so
`is_int v` holds exactly when the supplied value is an integer; `None` and
non-integer numerics are not integers. -/
def is_int : Option ℚ → Bool
  | none => false
  | some q => q.den == 1

/-- Python `s.endswith(suffix)`, on the character level. -/
def strEndsWith (s suffix : String) : Bool :=
  suffix.data.isSuffixOf s.data

/-- Python `s[:-n]` (for `0 < n ≤ len(s)`): drop the last `n` characters. -/
def strDropRight (s : String) (n : Nat) : String :=
  String.mk (s.data.take (s.data.length - n))

/-- Whether `pat` occurs in `l` as a contiguous sublist. -/
def hasSubList (l pat : List Char) : Bool :=
  (List.range (l.length + 1)).any (fun i => pat.isPrefixOf (l.drop i))

/-- Python `pat in s` (substring containment). -/
def strContains (s pat : String) : Bool :=
  hasSubList s.data pat.data

/-- lib.py `Model`: `stan_file`, optional `name`, optional `exe_file`
(full path to the compiled executable). -/
structure Model where
  stan_file : String
  name : Option String
  exe_file : Option String
deriving DecidableEq, Repr

/-- lib.py `SamplerArgs.__init__` (lines 113-168): the flattened sampler
configuration.  The Python constructor merely stores the arguments, so the
structure is the whole constructor.  Defaults mirror the Python keyword
defaults (`save_warmup=False`, `do_adaptation=True`, everything else `None`).
The Python `model` parameter is required; the embedding therefore carries a
`Model` value (the source's `model is None` guard in `validate` has no
counterpart here, and no claim exercises it). -/
structure SamplerArgs where
  model : Model
  seed : Option ℚ := none
  data_file : Option String := none
  init_param_values : Option String := none
  output_file : Option String := none
  refresh : Option ℚ := none
  post_warmup_draws : Option ℚ := none
  warmup_draws : Option ℚ := none
  save_warmup : Bool := false
  thin : Option ℚ := none
  do_adaptation : Bool := true
  adapt_gamma : Option ℚ := none
  adapt_delta : Option ℚ := none
  adapt_kappa : Option ℚ := none
  adapt_t0 : Option ℚ := none
  nuts_max_depth : Option ℚ := none
  hmc_metric_file : Option String := none
  hmc_stepsize : Option ℚ := none
deriving DecidableEq, Repr

/-- One `if X is not None: cmd = '{} frag'.format(cmd, X)` step of
`compose_command`: append the rendered fragment when the slot is set. -/
def appendOpt {α : Type} (cmd : String) (o : Option α) (f : α → String) : String :=
  match o with
  | none => cmd
  | some x => cmd ++ f x

/-- One `if b: cmd = cmd + frag` step of `compose_command`. -/
def appendIf (cmd : String) (b : Bool) (frag : String) : String :=
  if b then cmd ++ frag else cmd

/-- The condition of lib.py lines 245-249: `self.do_adaptation and not
(gamma is None and delta is None and kappa is None and t0 is None)`. -/
def adaptCond (a : SamplerArgs) : Bool :=
  a.do_adaptation &&
    !(a.adapt_gamma.isNone && a.adapt_delta.isNone &&
      a.adapt_kappa.isNone && a.adapt_t0.isNone)

/-- lib.py `SamplerArgs.compose_command` (lines 219-263), line by line.
Each `appendOpt`/`appendIf` step is one `if` of the source, in source order:
seed, data file, init file, output file (always, from the base path, chain id
and `.csv`), refresh, `method=sample`, `num_samples`, `num_warmup`,
`save_warmup=1`, `thin`, `algorithm=hmc`, `engine=nuts max_depth`, the
`adapt` marker (guarded by `adaptCond`), the four tuning scalars,
`metric_file="..."`, `stepsize`. -/
def SamplerArgs.compose_command (a : SamplerArgs) (chain_id : Int) : String :=
  let cmd := optStr a.model.exe_file ++ " id=" ++ toString chain_id
  let cmd := appendOpt cmd a.seed (fun s => " random seed=" ++ pyStr s)
  let cmd := appendOpt cmd a.data_file (fun f => " data file=" ++ f)
  let cmd := appendOpt cmd a.init_param_values (fun f => " init=" ++ f)
  let cmd := cmd ++ (" output file=" ++ (optStr a.output_file ++ "-" ++ toString chain_id ++ ".csv"))
  let cmd := appendOpt cmd a.refresh (fun r => " refresh=" ++ pyStr r)
  let cmd := cmd ++ " method=sample"
  let cmd := appendOpt cmd a.post_warmup_draws (fun n => " num_samples=" ++ pyStr n)
  let cmd := appendOpt cmd a.warmup_draws (fun n => " num_warmup=" ++ pyStr n)
  let cmd := appendIf cmd a.save_warmup (" save_warmup=1")
  let cmd := appendOpt cmd a.thin (fun t => " thin=" ++ pyStr t)
  let cmd := cmd ++ " algorithm=hmc"
  let cmd := appendOpt cmd a.nuts_max_depth (fun d => " engine=nuts max_depth=" ++ pyStr d)
  let cmd := appendIf cmd (adaptCond a) (" adapt")
  let cmd := appendOpt cmd a.adapt_gamma (fun g => " gamma=" ++ pyStr g)
  let cmd := appendOpt cmd a.adapt_delta (fun d => " delta=" ++ pyStr d)
  let cmd := appendOpt cmd a.adapt_kappa (fun k => " kappa=" ++ pyStr k)
  let cmd := appendOpt cmd a.adapt_t0 (fun t => " t0=" ++ pyStr t)
  let cmd := appendOpt cmd a.hmc_metric_file (fun f => " metric_file=" ++ ("\"" ++ f ++ "\""))
  let cmd := appendOpt cmd a.hmc_stepsize (fun s => " stepsize=" ++ pyStr s)
  cmd

/-- The fragment list contributed by one optional field: nothing when unset,
the rendered fragment when set. -/
def optFrag {α : Type} (o : Option α) (f : α → String) : List String :=
  match o with
  | none => []
  | some x => [f x]

/-- The fragment list contributed by a boolean-guarded field. -/
def boolFrag (b : Bool) (frag : String) : List String :=
  if b then [frag] else []

/-- The command as a list of per-field fragments in the order the SOURCE emits
them (the spec's fixed-order sentence, except that the source puts the
save-warmup marker before thinning).  `String.join` of this list is proved
equal to `compose_command`. -/
def compose_fragments (a : SamplerArgs) (chain_id : Int) : List String :=
  [optStr a.model.exe_file ++ " id=" ++ toString chain_id]
  ++ optFrag a.seed (fun s => " random seed=" ++ pyStr s)
  ++ optFrag a.data_file (fun f => " data file=" ++ f)
  ++ optFrag a.init_param_values (fun f => " init=" ++ f)
  ++ [" output file=" ++ (optStr a.output_file ++ "-" ++ toString chain_id ++ ".csv")]
  ++ optFrag a.refresh (fun r => " refresh=" ++ pyStr r)
  ++ [" method=sample"]
  ++ optFrag a.post_warmup_draws (fun n => " num_samples=" ++ pyStr n)
  ++ optFrag a.warmup_draws (fun n => " num_warmup=" ++ pyStr n)
  ++ boolFrag a.save_warmup (" save_warmup=1")
  ++ optFrag a.thin (fun t => " thin=" ++ pyStr t)
  ++ [" algorithm=hmc"]
  ++ optFrag a.nuts_max_depth (fun d => " engine=nuts max_depth=" ++ pyStr d)
  ++ boolFrag (adaptCond a) (" adapt")
  ++ optFrag a.adapt_gamma (fun g => " gamma=" ++ pyStr g)
  ++ optFrag a.adapt_delta (fun d => " delta=" ++ pyStr d)
  ++ optFrag a.adapt_kappa (fun k => " kappa=" ++ pyStr k)
  ++ optFrag a.adapt_t0 (fun t => " t0=" ++ pyStr t)
  ++ optFrag a.hmc_metric_file (fun f => " metric_file=" ++ ("\"" ++ f ++ "\""))
  ++ optFrag a.hmc_stepsize (fun s => " stepsize=" ++ pyStr s)

/-- The field order exactly as claim C3 states it ("draw counts, thinning,
save-warmup marker"): identical to `compose_fragments` except that the
thinning fragment precedes the save-warmup marker.  Written from the claim's
words, to be compared with the source's order. -/
def compose_fragments_claim_order (a : SamplerArgs) (chain_id : Int) : List String :=
  [optStr a.model.exe_file ++ " id=" ++ toString chain_id]
  ++ optFrag a.seed (fun s => " random seed=" ++ pyStr s)
  ++ optFrag a.data_file (fun f => " data file=" ++ f)
  ++ optFrag a.init_param_values (fun f => " init=" ++ f)
  ++ [" output file=" ++ (optStr a.output_file ++ "-" ++ toString chain_id ++ ".csv")]
  ++ optFrag a.refresh (fun r => " refresh=" ++ pyStr r)
  ++ [" method=sample"]
  ++ optFrag a.post_warmup_draws (fun n => " num_samples=" ++ pyStr n)
  ++ optFrag a.warmup_draws (fun n => " num_warmup=" ++ pyStr n)
  ++ optFrag a.thin (fun t => " thin=" ++ pyStr t)
  ++ boolFrag a.save_warmup (" save_warmup=1")
  ++ [" algorithm=hmc"]
  ++ optFrag a.nuts_max_depth (fun d => " engine=nuts max_depth=" ++ pyStr d)
  ++ boolFrag (adaptCond a) (" adapt")
  ++ optFrag a.adapt_gamma (fun g => " gamma=" ++ pyStr g)
  ++ optFrag a.adapt_delta (fun d => " delta=" ++ pyStr d)
  ++ optFrag a.adapt_kappa (fun k => " kappa=" ++ pyStr k)
  ++ optFrag a.adapt_t0 (fun t => " t0=" ++ pyStr t)
  ++ optFrag a.hmc_metric_file (fun f => " metric_file=" ++ ("\"" ++ f ++ "\""))
  ++ optFrag a.hmc_stepsize (fun s => " stepsize=" ++ pyStr s)

/-- The file-system facts `SamplerArgs.validate` consults: `fexists p` is
`os.path.exists(p)`, `writable p` is whether the probe `open(p, 'w+')`
succeeds.  The embedding treats the file system as constant during a call
(the probe's creation of the file is irrelevant to every claim). -/
structure FS where
  fexists : String → Bool
  writable : String → Bool

/-- Python statement sequencing for a checking statement that either raises
or falls through: propagate the raise, otherwise continue. -/
def pyseq {α : Type} (c : Except PyErr Unit) (k : Except PyErr α) : Except PyErr α :=
  match c with
  | Except.error e => Except.error e
  | Except.ok _ => k

/-- One `if X is not None: if not os.path.exists(X): raise ValueError(...)`
block of `SamplerArgs.validate` (lines 197-205). -/
def checkExists (fs : FS) (o : Option String) (msg : String) : Except PyErr Unit :=
  match o with
  | some f => if !(fs.fexists f) then Except.error (PyErr.valueError msg) else Except.ok ()
  | none => Except.ok ()

/-- One draw-count check of `SamplerArgs.validate` (lines 206-213):
`if o is not None: if not is_int(intProbe) or o < 0: raise ...`.  The value
probed for integrality (`intProbe`) is passed separately because the source's
`warmup_draws` check tests `is_int(self.post_warmup_draws)`, not the warmup
count itself (line 211). -/
def checkDraw (intProbe : Option ℚ) (o : Option ℚ) (msg : String) : Except PyErr Unit :=
  match o with
  | some v =>
    if !(is_int intProbe) || v < 0 then Except.error (PyErr.valueError msg)
    else Except.ok ()
  | none => Except.ok ()

/-- The seed block of `SamplerArgs.validate` (lines 191-196): draw a seed
uniformly from [1, 99999] when none is supplied (`rngSeed` is the oracle for
`np.random.RandomState().randint(1, 99999 + 1)`: the stored seed is
`1 + rngSeed % 99999`); otherwise require an integer in [0, 2^32-1]
(4294967295 is the source's `2**32-1`). -/
def checkSeed (seed : Option ℚ) (rngSeed : Nat) : Except PyErr (Option ℚ) :=
  match seed with
  | none => Except.ok (some ((1 + rngSeed % 99999 : ℕ) : ℚ))
  | some s =>
    if !(is_int seed) || s < 0 || s > 4294967295 then
      Except.error (PyErr.valueError ("seed must be an integer value between 0 and 2**32-1"))
    else Except.ok (some s)

/-- The output-path normalisation of `SamplerArgs.validate` (lines 185-186):
strip a trailing `.csv`. -/
def stripCsv (out0 : String) : String :=
  if strEndsWith out0 (".csv") then strDropRight out0 4 else out0

/-- lib.py `SamplerArgs.validate` (lines 171-217), in source order.  Python
mutates `self` and returns `None`; the embedding returns the updated argument
set on success and the raised error otherwise.
Line map: exe-file checks 176-182, output-file checks 183-190 (`stripCsv`,
then the `open(..., 'w+')` write probe on the stripped path), seed 191-196
(`checkSeed`), data file 197-199, init file 200-202, metric file 203-205
(`checkExists`), `post_warmup_draws` 206-209 and `warmup_draws` 210-213
(`checkDraw`; the warmup check's integrality probe is `post_warmup_draws`,
verbatim from the source). -/
def SamplerArgs.validate (a : SamplerArgs) (fs : FS) (rngSeed : Nat) :
    Except PyErr SamplerArgs :=
  match a.model.exe_file with
  | none => Except.error (PyErr.valueError ("stan model must be compiled first"))
  | some exe =>
    if !(fs.fexists exe) then
      Except.error (PyErr.valueError ("cannot access model executible"))
    else
      match a.output_file with
      | none => Except.error (PyErr.valueError ("no output file specified"))
      | some out0 =>
        if !(fs.writable (stripCsv out0)) then
          Except.error (PyErr.valueError ("invalid path for output csv files"))
        else
          match checkSeed a.seed rngSeed with
          | Except.error e => Except.error e
          | Except.ok seed1 =>
            pyseq (checkExists fs a.data_file ("no such file data_file")) <|
            pyseq (checkExists fs a.init_param_values ("no such file init_param_values")) <|
            pyseq (checkExists fs a.hmc_metric_file ("no such file hmc_metric_file")) <|
            pyseq (checkDraw a.post_warmup_draws a.post_warmup_draws
              ("post_warmup_draws must be a non-negative integer value")) <|
            pyseq (checkDraw a.post_warmup_draws a.warmup_draws
              ("warmup_draws must be a non-negative integer value")) <|
            Except.ok { a with output_file := some (stripCsv out0), seed := seed1 }

/-- Python `range(n)` for an `int` argument (empty when `n ≤ 0`), as the list
of `Int` indices. -/
def rangeInt (n : Int) : List Int :=
  (List.range n.toNat).map Int.ofNat

/-- lib.py `RunSet` attribute record: the five constructor parameters plus the
four derived per-chain collections (`cmds`, `output_files`,
`transcript_files`, the name-mangled `__retcodes`). -/
structure RunSet where
  chains : Int
  cores : Int
  args : SamplerArgs
  transcript_file : String
  cmds : List String
  output_files : List String
  transcript_files : List String
  retcodes : List Int
deriving DecidableEq, Repr

/-- lib.py `RunSet.__init__` (lines 59-77).  The derived collections are
comprehensions over `range(chains)` (lines 69-75, chain id `i+1`); the
`chains < 1` guard comes last (line 76).  Its `raise ValueError(...)` first
evaluates `'chains must be positive integer value, found {i]}'.format(self.chains)`;
the replacement-field name `i]` is neither a positional index nor a supplied
keyword, so `str.format` itself raises `KeyError('i]')` and the `ValueError`
is never constructed. -/
def RunSet.init (chains cores : Int) (args : SamplerArgs) (transcript_file : String) :
    Except PyErr RunSet :=
  let cmds := (rangeInt chains).map (fun i => args.compose_command (i + 1))
  let output_files := (rangeInt chains).map
    (fun i => optStr args.output_file ++ "-" ++ toString (i + 1) ++ ".csv")
  let transcript_files := (rangeInt chains).map
    (fun i => transcript_file ++ "-" ++ toString (i + 1) ++ ".txt")
  let retcodes := (rangeInt chains).map (fun _ => (-1 : Int))
  if chains < 1 then
    Except.error (PyErr.keyError ("i]"))
  else
    Except.ok
      { chains := chains, cores := cores, args := args,
        transcript_file := transcript_file, cmds := cmds,
        output_files := output_files, transcript_files := transcript_files,
        retcodes := retcodes }

/-- lib.py `RunSet.get_retcode` (lines 83-84); out-of-range access is not
exercised by any claim. -/
def RunSet.get_retcode (r : RunSet) (idx : Nat) : Option Int :=
  r.retcodes.get? idx

/-- lib.py `RunSet.set_retcode` (lines 86-87); out-of-range access is not
exercised by any claim. -/
def RunSet.set_retcode (r : RunSet) (idx : Nat) (val : Int) : RunSet :=
  { r with retcodes := r.retcodes.set idx val }

/-- Names bound at module scope of lib.py once it is loaded: the imports
(lines 1-6, 56, 265) and the four class statements.  In particular neither
`chains`, `i`, `false`, `true` nor `scan_stan_csv` is among them, and none of
these is a Python builtin. -/
def libModuleGlobals : List String :=
  ["json", "os", "pformat", "np", "is_int", "rdump",
   "Model", "PosteriorSample", "RunSet", "SamplerArgs", "StanData"]

/-- lib.py `RunSet.is_success` (lines 89-94).  The body is
`for i in range(chains): ...` — the bare name `chains` (not `self.chains`) is
no local, no module global of lib.py (see `libModuleGlobals`) and no builtin,
so evaluating `range(chains)` raises `NameError: name 'chains' is not
defined` before any return-code slot is inspected.  (Had the loop run, the
`return false` / `return true` statements reference the equally undefined
lowercase names `false` and `true`.) -/
def RunSet.is_success (_r : RunSet) : Except PyErr Bool :=
  Except.error (PyErr.nameError ("chains"))

/-- The comparison `RunSet.is_success`'s own docstring announces ("checks
that all chains have retcode 0"): every recorded slot equals 0. -/
def RunSet.all_retcodes_zero (r : RunSet) : Bool :=
  r.retcodes.all (fun c => c == 0)

/-- lib.py `RunSet.validate` (lines 96-108).  Its loop header is
`for x in range(chains)` with the same unbound bare name `chains` as
`is_success`, so the call raises `NameError: name 'chains' is not defined`
before any output file is read.  (Past that header the body is also broken:
it indexes `self.output_files[i]` with the unbound name `i` instead of the
loop variable `x`, calls `scan_stan_csv`, which lib.py neither defines nor
imports, and returns the undefined lowercase names `false`/`true`.) -/
def RunSet.validate (_r : RunSet) : Except PyErr Bool :=
  Except.error (PyErr.nameError ("chains"))

/-! Concrete instances used by the claim theorems and witnesses. -/

/-- A file system on which every path exists and every path is writable. -/
def fsAll : FS := { fexists := fun _ => true, writable := fun _ => true }

/-- A model whose compiled executable is the path `mexe`. -/
def mexe : Model := { stan_file := "m.stan", name := none, exe_file := some ("mexe") }

/-- A minimal valid argument set: seed 1, output base `out`. -/
def A1 : SamplerArgs := { model := mexe, seed := some 1, output_file := some ("out") }

/-- A run set as constructed for two chains of `A1`, after both chains were
supervised to completion with exit code 0. -/
def R1 : RunSet :=
  match RunSet.init 2 1 A1 ("t") with
  | Except.ok r => (r.set_retcode 0 0).set_retcode 1 0
  | Except.error _ =>
    { chains := 0, cores := 0, args := A1, transcript_file := "",
      cmds := [], output_files := [], transcript_files := [], retcodes := [] }

/-- Argument set for the C3 counterexample: both the save-warmup marker and
thinning are set. -/
def A3 : SamplerArgs :=
  { model := mexe, output_file := some ("o"), save_warmup := true, thin := some 5 }

/-- Argument set for the C4 counterexample: the output base carries a doubled
`.csv.csv` extension. -/
def A4 : SamplerArgs := { model := mexe, seed := some 1, output_file := some ("out.csv.csv") }

/-- `A4` after its first validation: one `.csv` stripped. -/
def A4fst : SamplerArgs := { A4 with output_file := some ("out.csv"), seed := some 1 }

/-- `A4fst` after a second validation: the surviving `.csv` stripped again. -/
def A4snd : SamplerArgs := { A4 with output_file := some ("out"), seed := some 1 }

/-- Argument set for the C5 failing input: `post_warmup_draws = 5` and the
non-integer `warmup_draws = 5/2`. -/
def A5 : SamplerArgs :=
  { model := mexe, seed := some 1, output_file := some ("out"),
    post_warmup_draws := some 5, warmup_draws := some (mkRat 5 2) }

/-- Argument set for the C8 witness: adaptation enabled and one tuning scalar
(delta) set. -/
def A8 : SamplerArgs :=
  { model := mexe, output_file := some ("o"), do_adaptation := true, adapt_delta := some 1 }

/-- The argument set claim C9 fixes: seed 1234, output base `out`, no other
optional field set. -/
def A9 : SamplerArgs := { model := mexe, seed := some 1234, output_file := some ("out") }

/-- Argument set for the C10 witness: adaptation disabled while two tuning
scalars (gamma and t0) are set. -/
def A10 : SamplerArgs :=
  { model := mexe, output_file := some ("o"), do_adaptation := false,
    adapt_gamma := some 1, adapt_t0 := some 5 }

/-! Helper lemmas about string concatenation, `String.join` and the fragment
combinators. -/

theorem mk_append (a b : List Char) : String.mk a ++ String.mk b = String.mk (a ++ b) := rfl

theorem strAppend_assoc (a b c : String) : (a ++ b) ++ c = a ++ (b ++ c) := by
  apply String.ext
  simp [String.data_append, List.append_assoc]

theorem strAppend_empty (a : String) : a ++ "" = a := by
  apply String.ext
  simp [String.data_append]

theorem join_nil : String.join [] = "" := rfl

theorem join_cons (s : String) (l : List String) :
    String.join (s :: l) = s ++ String.join l := by
  rw [String.join_eq, String.join_eq, List.map_cons, List.flatten_cons, ← mk_append]

theorem join_append (l₁ l₂ : List String) :
    String.join (l₁ ++ l₂) = String.join l₁ ++ String.join l₂ := by
  rw [String.join_eq, String.join_eq, String.join_eq, mk_append,
    List.map_append, List.flatten_append]

theorem appendOpt_eq {α : Type} (cmd : String) (o : Option α) (f : α → String) :
    appendOpt cmd o f = cmd ++ String.join (optFrag o f) := by
  cases o <;> simp [appendOpt, optFrag, join_nil, join_cons, strAppend_empty]

theorem appendIf_eq (cmd : String) (b : Bool) (frag : String) :
    appendIf cmd b frag = cmd ++ String.join (boolFrag b frag) := by
  cases b <;> simp [appendIf, boolFrag, join_nil, join_cons, strAppend_empty]

/-- The source's string-builder and the fixed-order fragment list render the
same command. -/
theorem compose_command_eq_join (a : SamplerArgs) (chain_id : Int) :
    a.compose_command chain_id = String.join (compose_fragments a chain_id) := by
  simp only [SamplerArgs.compose_command, compose_fragments, appendOpt_eq, appendIf_eq,
    join_append, join_cons, join_nil, strAppend_empty, strAppend_assoc]

theorem mem_optFrag {α : Type} {s : String} {o : Option α} {f : α → String} :
    s ∈ optFrag o f ↔ ∃ x, o = some x ∧ s = f x := by
  cases o <;> simp [optFrag]

theorem prefix_of_append_eq {a x b : String} (h : a ++ x = b) : a.data <+: b.data :=
  ⟨x.data, by rw [← String.data_append, h]⟩

theorem frag_ne {a b : String} (hnp : ¬ a.data <+: b.data) (x : String) : a ++ x ≠ b :=
  fun h => hnp (prefix_of_append_eq h)

theorem adaptCond_eq_true {a : SamplerArgs} :
    adaptCond a = true ↔
      (a.do_adaptation = true ∧
        ¬(a.adapt_gamma = none ∧ a.adapt_delta = none ∧
          a.adapt_kappa = none ∧ a.adapt_t0 = none)) := by
  cases hg : a.adapt_gamma <;> cases hd : a.adapt_delta <;> cases hk : a.adapt_kappa <;>
    cases ht : a.adapt_t0 <;> cases hdo : a.do_adaptation <;>
      simp [adaptCond, hg, hd, hk, ht, hdo]

/-- If the rendered command's fragment list contains the bare `adapt` marker
fragment, the source's adaptation condition held (the executable-path fragment
is the only fragment without a fixed flag prefix, hence the hypothesis). -/
theorem mem_adapt_cond {a : SamplerArgs} {chain_id : Int}
    (hexe : optStr a.model.exe_file ++ " id=" ++ toString chain_id ≠ " adapt")
    (h : " adapt" ∈ compose_fragments a chain_id) : adaptCond a = true := by
  simp only [compose_fragments, List.mem_append, List.mem_singleton, or_assoc] at h
  rcases h with h | h | h | h | h | h | h | h | h | h | h | h | h | h | h | h | h | h | h | h
  · exact absurd h.symm hexe
  · obtain ⟨x, hx, he⟩ := mem_optFrag.mp h
    exact absurd he.symm (frag_ne (by decide) _)
  · obtain ⟨x, hx, he⟩ := mem_optFrag.mp h
    exact absurd he.symm (frag_ne (by decide) _)
  · obtain ⟨x, hx, he⟩ := mem_optFrag.mp h
    exact absurd he.symm (frag_ne (by decide) _)
  · exact absurd h.symm (frag_ne (by decide) _)
  · obtain ⟨x, hx, he⟩ := mem_optFrag.mp h
    exact absurd he.symm (frag_ne (by decide) _)
  · exact absurd h (by decide)
  · obtain ⟨x, hx, he⟩ := mem_optFrag.mp h
    exact absurd he.symm (frag_ne (by decide) _)
  · obtain ⟨x, hx, he⟩ := mem_optFrag.mp h
    exact absurd he.symm (frag_ne (by decide) _)
  · cases hsw : a.save_warmup <;> simp [boolFrag, hsw] at h
  · obtain ⟨x, hx, he⟩ := mem_optFrag.mp h
    exact absurd he.symm (frag_ne (by decide) _)
  · exact absurd h (by decide)
  · obtain ⟨x, hx, he⟩ := mem_optFrag.mp h
    exact absurd he.symm (frag_ne (by decide) _)
  · cases hc : adaptCond a
    · simp [boolFrag, hc] at h
    · rfl
  · obtain ⟨x, hx, he⟩ := mem_optFrag.mp h
    exact absurd he.symm (frag_ne (by decide) _)
  · obtain ⟨x, hx, he⟩ := mem_optFrag.mp h
    exact absurd he.symm (frag_ne (by decide) _)
  · obtain ⟨x, hx, he⟩ := mem_optFrag.mp h
    exact absurd he.symm (frag_ne (by decide) _)
  · obtain ⟨x, hx, he⟩ := mem_optFrag.mp h
    exact absurd he.symm (frag_ne (by decide) _)
  · obtain ⟨x, hx, he⟩ := mem_optFrag.mp h
    exact absurd he.symm (frag_ne (by decide) _)
  · obtain ⟨x, hx, he⟩ := mem_optFrag.mp h
    exact absurd he.symm (frag_ne (by decide) _)

/-- Conversely, when the adaptation condition holds the marker fragment is
emitted. -/
theorem mem_adapt_of_cond {a : SamplerArgs} (chain_id : Int)
    (hc : adaptCond a = true) : " adapt" ∈ compose_fragments a chain_id := by
  simp [compose_fragments, boolFrag, hc, List.mem_append]

/-! Claim theorems. -/

/-- Claim C1 (code bug): `RunSet.is_success` never returns a boolean at all —
its loop header reads the unbound bare name `chains`, so every call raises
`NameError: name 'chains' is not defined`; in particular on `R1`, a run set
whose two exit-code slots are both 0 (where the claim demands `true`), the
call still raises even though the docstring's own success test
(`all_retcodes_zero`) holds. -/
theorem c1_is_success_raises :
    (∀ r : RunSet, r.is_success = Except.error (PyErr.nameError ("chains"))) ∧
    RunSet.all_retcodes_zero R1 = true ∧
    R1.is_success = Except.error (PyErr.nameError ("chains")) :=
  ⟨fun _ => rfl, rfl, rfl⟩

/-- Claim C2 (code bug): `RunSet.validate` never compares any records — its
loop header reads the same unbound bare name `chains` as `is_success`, so
every call (here also the concrete completed run set `R1`) raises
`NameError: name 'chains' is not defined` instead of returning a boolean
verdict. -/
theorem c2_validate_raises :
    (∀ r : RunSet, r.validate = Except.error (PyErr.nameError ("chains"))) ∧
    R1.validate = Except.error (PyErr.nameError ("chains")) :=
  ⟨fun _ => rfl, rfl⟩

/-- Claim C3, counterexample: with both the save-warmup marker and thinning
set (`A3`), the command the source renders does not follow the claim's field
order (which puts thinning before the save-warmup marker): the source emits
`save_warmup=1 thin=5`, the claim's order demands `thin=5 save_warmup=1`. -/
theorem c3_claim_order_fails :
    SamplerArgs.compose_command A3 1 ≠
      String.join (compose_fragments_claim_order A3 1) := by
  decide

/-- Claim C3 as amended: the rendered command is exactly the join of the set
fields' fragments in the fixed source order — executable path, chain id,
seed, data file, init file, per-chain output file path, refresh, sampling
method marker, draw counts, save-warmup marker, thinning, algorithm marker,
NUTS max-depth, adaptation marker followed by any set tuning scalars,
metric-file path, step size (save-warmup precedes thinning, unlike the
claim's stated order). -/
theorem c3_fixed_order (a : SamplerArgs) (chain_id : Int) :
    a.compose_command chain_id = String.join (compose_fragments a chain_id) :=
  compose_command_eq_join a chain_id

/-- Claim C5 (code bug): on `A5`, whose supplied `warmup_draws = 5/2` is not
an integer (while `post_warmup_draws = 5` is), `validate` succeeds without
touching a single field, because line 211 of the source tests
`is_int(self.post_warmup_draws)` instead of the warmup count itself; the
claim demands a configuration error here. -/
theorem c5_warmup_check_bug :
    SamplerArgs.validate A5 fsAll 0 = Except.ok A5 ∧
    is_int A5.warmup_draws = false ∧ is_int A5.post_warmup_draws = true :=
  ⟨rfl, rfl, rfl⟩

/-- Claim C6 (code bug): constructing a run set with `chain_count = 0` does
fail before anything is launched, but not with the configuration error the
claim (and line 77's own `raise ValueError`) intends: building the error
message evaluates `'... found {i]}'.format(self.chains)`, whose malformed
replacement field makes `str.format` raise `KeyError('i]')`, so a `KeyError`
— never a `ValueError` — escapes the constructor. -/
theorem c6_zero_chains_keyerror :
    RunSet.init 0 1 A1 ("t") = Except.error (PyErr.keyError ("i]")) ∧
    ∀ msg, RunSet.init 0 1 A1 ("t") ≠ Except.error (PyErr.valueError msg) := by
  refine ⟨rfl, fun msg h => ?_⟩
  have h' : (Except.error (PyErr.keyError ("i]")) : Except PyErr RunSet) =
      Except.error (PyErr.valueError msg) := h
  injection h' with h2
  injection h2

/-- Claim C8: the `adapt` marker fragment is emitted in the rendered command
(whose text is exactly the join of `compose_fragments`, by `compose_command_eq_join`)
iff `do_adaptation` is true and at least one of the four tuning scalars is
set.  The hypothesis rules out an executable path that spoofs the marker
fragment; every other fragment carries a fixed flag prefix and can never
equal the marker. -/
theorem c8_adapt_marker_iff (a : SamplerArgs) (chain_id : Int)
    (hexe : optStr a.model.exe_file ++ " id=" ++ toString chain_id ≠ " adapt") :
    " adapt" ∈ compose_fragments a chain_id ↔
      (a.do_adaptation = true ∧
        ¬(a.adapt_gamma = none ∧ a.adapt_delta = none ∧
          a.adapt_kappa = none ∧ a.adapt_t0 = none)) := by
  constructor
  · intro h
    exact adaptCond_eq_true.mp (mem_adapt_cond hexe h)
  · intro h
    exact mem_adapt_of_cond chain_id (adaptCond_eq_true.mpr h)

theorem c8_witness :
    (optStr A8.model.exe_file ++ " id=" ++ toString (1 : Int) ≠ " adapt") ∧
    (" adapt" ∈ compose_fragments A8 1 ↔
      (A8.do_adaptation = true ∧
        ¬(A8.adapt_gamma = none ∧ A8.adapt_delta = none ∧
          A8.adapt_kappa = none ∧ A8.adapt_t0 = none))) :=
  ⟨by decide, c8_adapt_marker_iff A8 1 (by decide)⟩

/-- Claim C9: on the argument set with seed 1234 and output base `out` and
nothing else set, `compose_command 2` renders a command containing
`random seed=1234`, `output file=out-2.csv`, `method=sample` and
`algorithm=hmc`, and containing no adaptation marker (no occurrence of
`adapt` at all). -/
theorem c9_concrete_command :
    strContains (SamplerArgs.compose_command A9 2) "random seed=1234" = true ∧
    strContains (SamplerArgs.compose_command A9 2) "output file=out-2.csv" = true ∧
    strContains (SamplerArgs.compose_command A9 2) "method=sample" = true ∧
    strContains (SamplerArgs.compose_command A9 2) "algorithm=hmc" = true ∧
    strContains (SamplerArgs.compose_command A9 2) "adapt" = false := by
  refine ⟨by decide, by decide, by decide, by decide, by decide⟩

/-- Claim C10: with `do_adaptation = false` and at least one tuning scalar
set, the command still carries every set scalar's fragment while the `adapt`
marker fragment is absent (the hypothesis about the executable-path fragment
rules out a spoofed marker, as in C8). -/
theorem c10_scalars_without_marker (a : SamplerArgs) (chain_id : Int)
    (hda : a.do_adaptation = false)
    (hexe : optStr a.model.exe_file ++ " id=" ++ toString chain_id ≠ " adapt")
    (_hset : ¬(a.adapt_gamma = none ∧ a.adapt_delta = none ∧
        a.adapt_kappa = none ∧ a.adapt_t0 = none)) :
    " adapt" ∉ compose_fragments a chain_id ∧
    (∀ g, a.adapt_gamma = some g → " gamma=" ++ pyStr g ∈ compose_fragments a chain_id) ∧
    (∀ d, a.adapt_delta = some d → " delta=" ++ pyStr d ∈ compose_fragments a chain_id) ∧
    (∀ k, a.adapt_kappa = some k → " kappa=" ++ pyStr k ∈ compose_fragments a chain_id) ∧
    (∀ t, a.adapt_t0 = some t → " t0=" ++ pyStr t ∈ compose_fragments a chain_id) := by
  refine ⟨?_, ?_, ?_, ?_, ?_⟩
  · intro h
    have hc := mem_adapt_cond hexe h
    rw [adaptCond, hda] at hc
    simp at hc
  · intro g hg
    simp [compose_fragments, List.mem_append, optFrag, hg]
  · intro d hd
    simp [compose_fragments, List.mem_append, optFrag, hd]
  · intro k hk
    simp [compose_fragments, List.mem_append, optFrag, hk]
  · intro t ht
    simp [compose_fragments, List.mem_append, optFrag, ht]

theorem c10_witness :
    A10.do_adaptation = false ∧
    (optStr A10.model.exe_file ++ " id=" ++ toString (1 : Int) ≠ " adapt") ∧
    ¬(A10.adapt_gamma = none ∧ A10.adapt_delta = none ∧
      A10.adapt_kappa = none ∧ A10.adapt_t0 = none) ∧
    (" adapt" ∉ compose_fragments A10 1 ∧
      (∀ g, A10.adapt_gamma = some g → " gamma=" ++ pyStr g ∈ compose_fragments A10 1) ∧
      (∀ d, A10.adapt_delta = some d → " delta=" ++ pyStr d ∈ compose_fragments A10 1) ∧
      (∀ k, A10.adapt_kappa = some k → " kappa=" ++ pyStr k ∈ compose_fragments A10 1) ∧
      (∀ t, A10.adapt_t0 = some t → " t0=" ++ pyStr t ∈ compose_fragments A10 1)) :=
  ⟨rfl, by decide, by decide,
    c10_scalars_without_marker A10 1 rfl (by decide) (by decide)⟩

theorem getD_map_range {β : Type} (n : Nat) (f : Int → β) (d : β) (i : Nat) (hi : i < n) :
    (((List.range n).map Int.ofNat).map f).getD i d = f (Int.ofNat i) := by
  rw [List.getD_eq_getElem]
  · simp
  · simp [hi]

/-- Claim C7: for every chain count N ≥ 1 the constructor succeeds and the
four derived collections all have exactly N entries, with entry i the command
for chain id i+1, the output path `base-(i+1).csv`, the transcript path
`t-(i+1).txt`, and the exit-code slot the -1 not-yet-run sentinel. -/
theorem c7_runset_shape (N cores : Int) (args : SamplerArgs) (t base : String)
    (hN : 1 ≤ N) (hbase : args.output_file = some base) :
    ∃ r : RunSet, RunSet.init N cores args t = Except.ok r ∧
      r.cmds.length = N.toNat ∧ r.output_files.length = N.toNat ∧
      r.transcript_files.length = N.toNat ∧ r.retcodes.length = N.toNat ∧
      ∀ i : Nat, i < N.toNat →
        r.cmds.getD i ("") = args.compose_command (Int.ofNat i + 1) ∧
        r.output_files.getD i ("") = base ++ "-" ++ toString (Int.ofNat i + 1) ++ ".csv" ∧
        r.transcript_files.getD i ("") = t ++ "-" ++ toString (Int.ofNat i + 1) ++ ".txt" ∧
        r.retcodes.getD i 0 = -1 := by
  have hlt : ¬ N < 1 := by omega
  simp only [RunSet.init]
  rw [if_neg hlt]
  refine ⟨_, rfl, ?_, ?_, ?_, ?_, ?_⟩
  · simp [rangeInt]
  · simp [rangeInt]
  · simp [rangeInt]
  · simp [rangeInt]
  · intro i hi
    simp only [rangeInt]
    rw [getD_map_range _ _ _ _ hi, getD_map_range _ _ _ _ hi,
      getD_map_range _ _ _ _ hi, getD_map_range _ _ _ _ hi]
    refine ⟨rfl, ?_, rfl, rfl⟩
    rw [hbase]
    rfl

theorem c7_witness :
    (1 : Int) ≤ 2 ∧ A1.output_file = some ("out") ∧
    (∃ r : RunSet, RunSet.init 2 1 A1 ("t") = Except.ok r ∧
      r.cmds.length = (2 : Int).toNat ∧ r.output_files.length = (2 : Int).toNat ∧
      r.transcript_files.length = (2 : Int).toNat ∧ r.retcodes.length = (2 : Int).toNat ∧
      ∀ i : Nat, i < (2 : Int).toNat →
        r.cmds.getD i ("") = A1.compose_command (Int.ofNat i + 1) ∧
        r.output_files.getD i ("") = "out" ++ "-" ++ toString (Int.ofNat i + 1) ++ ".csv" ∧
        r.transcript_files.getD i ("") = "t" ++ "-" ++ toString (Int.ofNat i + 1) ++ ".txt" ∧
        r.retcodes.getD i 0 = -1) :=
  ⟨by decide, rfl, c7_runset_shape 2 1 A1 ("t") "out" (by decide) rfl⟩

theorem pyseq_ok {α : Type} {c : Except PyErr Unit} {k : Except PyErr α} {v : α} :
    pyseq c k = Except.ok v ↔ c = Except.ok () ∧ k = Except.ok v := by
  cases c with
  | error e => simp [pyseq]
  | ok u => cases u; simp [pyseq]

/-- A seed slot that passed the seed block once passes it again unchanged:
the freshly drawn seed lies in [1, 99999] and a supplied seed already met the
range check. -/
theorem checkSeed_idem {s s1 : Option ℚ} {r : Nat} (r' : Nat)
    (h : checkSeed s r = Except.ok s1) : checkSeed s1 r' = Except.ok s1 := by
  cases s with
  | none =>
    rw [checkSeed] at h
    injection h with h1
    subst h1
    rw [checkSeed]
    have hnonneg : ¬ ((1 + r % 99999 : ℕ) : ℚ) < 0 :=
      not_lt.mpr (Nat.cast_nonneg _)
    have hle : ¬ ((1 + r % 99999 : ℕ) : ℚ) > 4294967295 := by
      rw [not_lt]
      have h1 : (1 + r % 99999 : ℕ) ≤ 99999 := by omega
      calc ((1 + r % 99999 : ℕ) : ℚ) ≤ ((99999 : ℕ) : ℚ) := by exact_mod_cast h1
        _ ≤ 4294967295 := by norm_num
    simp only [decide_eq_false hnonneg, decide_eq_false hle, is_int, Rat.den_natCast,
      beq_self_eq_true, Bool.not_true, Bool.or_false, Bool.false_or]
    rfl
  | some v =>
    rw [checkSeed] at h
    split at h
    · exact Except.noConfusion h
    · injection h with h1
      subst h1
      rw [checkSeed]
      split
      · rename_i hcond
        exact absurd hcond (by assumption)
      · rfl

/-- Claim C4, counterexample: an output base `out.csv.csv` survives the first
validation as `out.csv`, and a second validation strips it again to `out` —
re-validating an already-validated argument set does change a field. -/
theorem c4_not_idempotent :
    SamplerArgs.validate A4 fsAll 0 = Except.ok A4fst ∧
    SamplerArgs.validate A4fst fsAll 0 = Except.ok A4snd ∧
    A4snd.output_file ≠ A4fst.output_file :=
  ⟨rfl, rfl, by decide⟩

/-- Claim C4 as amended: re-validating a successfully validated argument set
changes no field and raises nothing, PROVIDED the validated output base does
not itself still end in `.csv` (the source strips only one `.csv` per call,
so a base like `out.csv.csv` is stripped again by the second call). -/
theorem c4_idempotent_unless_double_csv (a a' : SamplerArgs) (fs : FS) (r r' : Nat)
    (h : a.validate fs r = Except.ok a')
    (hcsv : ∀ o, a'.output_file = some o → strEndsWith o (".csv") = false) :
    a'.validate fs r' = Except.ok a' := by
  rw [SamplerArgs.validate] at h
  split at h
  · exact Except.noConfusion h
  rename_i exe hme
  split at h
  · exact Except.noConfusion h
  rename_i hfe
  split at h
  · exact Except.noConfusion h
  rename_i out0 hout
  split at h
  · exact Except.noConfusion h
  rename_i hwr
  split at h
  · exact Except.noConfusion h
  rename_i seed1 hseed
  rw [pyseq_ok, pyseq_ok, pyseq_ok, pyseq_ok, pyseq_ok] at h
  obtain ⟨h1, h2, h3, h4, h5, hfin⟩ := h
  injection hfin with hfin
  subst hfin
  have hstrip : stripCsv (stripCsv out0) = stripCsv out0 := by
    rw [stripCsv]
    rw [hcsv (stripCsv out0) rfl]
    rfl
  rw [SamplerArgs.validate]
  simp only [hme, hfe, hwr, hstrip, h1, h2, h3, h4, h5, pyseq_ok,
    checkSeed_idem r' hseed]
  simp [pyseq]

theorem c4_witness :
    SamplerArgs.validate A1 fsAll 0 = Except.ok A1 ∧
    (∀ o, A1.output_file = some o → strEndsWith o (".csv") = false) ∧
    SamplerArgs.validate A1 fsAll 5 = Except.ok A1 := by
  have hcsv : ∀ o, A1.output_file = some o → strEndsWith o (".csv") = false := by
    intro o ho
    have ho2 : o = "out" := (Option.some.inj ho).symm
    rw [ho2]
    decide
  exact ⟨rfl, hcsv, c4_idempotent_unless_double_csv A1 A1 fsAll 0 5 rfl hcsv⟩

end Cmdstanpy
